import Mathlib

/-!
Shallow embedding of `src/hub/executor/executor.go` (package `executor` of
Clash.Meta / mihomo): the configuration-application engine.  Process-wide
mutable state touched by each embedded function is made an explicit state
record; each function additionally returns (or is) a trace of the calls it
makes into collaborating subsystems, so that frame conditions ("nothing else
happened") are expressible as trace facts.  Collaborator packages that are
not part of the given source (dns, outboundgroup, the `concurrentCount`
constant defined in a sibling file of the package) are modelled from the
specification, and each such definition says so in its doc comment.
-/

namespace Executor

/-! ### Providers (`loadProvider`, `hcCompatibleProvider` per-provider body) -/

/-- Vehicle kind of a provider (`provider.VehicleType`).  `compatible`
corresponds to `provider.Compatible`; the remaining kinds (file- or
HTTP-backed) are the managed ones. -/
inductive VehicleType
  | compatible
  | file
  | http
  deriving DecidableEq, Repr

/-- Logical type of a provider (`provider.ProviderType`): proxy or rule. -/
inductive ProviderType
  | proxy
  | rule
  deriving DecidableEq, Repr

/-- A provider as seen by the executor: `Name()`, `Type()`, `VehicleType()`,
and the outcome its `Initial()` call would produce (`none` = success,
`some e` = the error message). -/
structure Provider where
  name : String
  ptype : ProviderType
  vehicleType : VehicleType
  initialErr : Option String
  deriving DecidableEq, Repr

/-- Observable calls made while initializing one provider. -/
inductive ProviderEvent
  | logInfoStart (name : String)
  | initialCall (name : String)
  | logErrorProxy (name : String) (err : String)
  | logErrorRule (name : String) (err : String)
  | logErrorCompatible (name : String) (err : String)
  deriving DecidableEq, Repr

/-- Embedding of `loadProvider` (executor.go:267-287).  Compatible-vehicle
providers are skipped; otherwise a start message is logged, `Initial()` is
called, and an error is logged per provider type.  The return type is a bare
trace: `Initial` errors are consumed here, never propagated to the caller. -/
def loadProvider (pv : Provider) : List ProviderEvent :=
  if pv.vehicleType = VehicleType.compatible then
    []
  else
    [ProviderEvent.logInfoStart pv.name, ProviderEvent.initialCall pv.name] ++
      match pv.initialErr, pv.ptype with
      | some err, ProviderType.proxy => [ProviderEvent.logErrorProxy pv.name err]
      | some err, ProviderType.rule => [ProviderEvent.logErrorRule pv.name err]
      | none, _ => []

/-- Embedding of the per-provider body of `hcCompatibleProvider`
(executor.go:326-339): only providers whose vehicle type is Compatible are
logged, have `Initial()` called, and have an error logged non-fatally. -/
def hcCompatibleProviderBody (pv : Provider) : List ProviderEvent :=
  if pv.vehicleType = VehicleType.compatible then
    [ProviderEvent.logInfoStart pv.name, ProviderEvent.initialCall pv.name] ++
      match pv.initialErr with
      | some err => [ProviderEvent.logErrorCompatible pv.name err]
      | none => []
  else
    []

/-! ### Bounded parallel task runner
(`loadProxyProvider`, `loadRuleProvider`, `hcCompatibleProvider`)

Each of the three phases launches one goroutine per processed provider,
guarded by a buffered channel of capacity `concurrentCount` acquired with
`ch <- struct\x7b\x7d{}` on the launching thread and released in the goroutine's
deferred function.  `loadProxyProvider` and `loadRuleProvider` end with
`wg.Wait()`; `hcCompatibleProvider` (executor.go:322-342) contains no
`wg.Wait()` call.  The channel/waitgroup dynamics are modelled as a small-step
transition system; `concurrentCount` itself is defined in a sibling file of
the package that is not part of the given source, so, modelled from the spec,
it is an arbitrary fixed constant `K` shared by all three call sites. -/

/-- Instantaneous state of one runner phase over `n` homogeneous tasks:
tasks not yet launched, goroutines launched and still holding their channel
token (the task body runs inside this window), tasks finished, and whether
the phase's function has returned to its caller. -/
structure RunnerState where
  pending : Nat
  inFlight : Nat
  done : Nat
  returned : Bool
  deriving DecidableEq, Repr

/-- One scheduler step of a runner phase with channel capacity `K`.
`waits` records whether the phase ends in `wg.Wait()`.
`launch`: the main loop sends on the channel (possible only when fewer than
`K` tokens are held) and spawns the goroutine.  `finish`: a launched
goroutine completes its body and releases its token (`<-ch; wg.Done()`).
`ret`: the main function returns — the loop must have launched everything,
and, when the phase waits, `wg.Wait()` additionally requires no goroutine to
be outstanding. -/
inductive RunnerStep (K : Nat) (waits : Bool) : RunnerState → RunnerState → Prop
  | launch (p f d : Nat) (hf : f < K) :
      RunnerStep K waits ⟨p + 1, f, d, false⟩ ⟨p, f + 1, d, false⟩
  | finish (p f d : Nat) (r : Bool) :
      RunnerStep K waits ⟨p, f + 1, d, r⟩ ⟨p, f, d + 1, r⟩
  | ret (f d : Nat) (hw : waits = true → f = 0) :
      RunnerStep K waits ⟨0, f, d, false⟩ ⟨0, f, d, true⟩

/-- Initial runner state: `n` tasks pending, nothing launched. -/
def runnerInit (n : Nat) : RunnerState :=
  ⟨n, 0, 0, false⟩

/-- Reachable states of `loadProxyProvider` (executor.go:306-321) over `n`
proxy providers: it launches `loadProvider` goroutines under the channel
bound and ends with `wg.Wait()`. -/
def loadProxyProviderRun (K n : Nat) (s : RunnerState) : Prop :=
  Relation.ReflTransGen (RunnerStep K true) (runnerInit n) s

/-- Reachable states of `loadRuleProvider` (executor.go:289-304) over `n`
rule providers: same shape as `loadProxyProviderRun`, ending in `wg.Wait()`. -/
def loadRuleProviderRun (K n : Nat) (s : RunnerState) : Prop :=
  Relation.ReflTransGen (RunnerStep K true) (runnerInit n) s

/-- Reachable states of `hcCompatibleProvider` (executor.go:322-342) over its
`n` Compatible-vehicle providers: the source contains no `wg.Wait()`, so the
function may return while goroutines are outstanding (`waits = false`). -/
def hcCompatibleProviderRun (K n : Nat) (s : RunnerState) : Prop :=
  Relation.ReflTransGen (RunnerStep K false) (runnerInit n) s

/-- Inductive invariant of every runner phase: never more than `K` tasks in
flight, task conservation, and — when the phase waits — a returned state has
all `n` tasks done. -/
theorem runnerStep_invariant (K n : Nat) (waits : Bool) (s : RunnerState)
    (h : Relation.ReflTransGen (RunnerStep K waits) (runnerInit n) s) :
    s.inFlight ≤ K ∧ s.pending + s.inFlight + s.done = n ∧
      (s.returned = true → s.pending = 0 ∧ (waits = true → s.inFlight = 0 ∧ s.done = n)) := by
  induction h with
  | refl => simp [runnerInit]
  | tail _ hstep ih =>
    rcases hstep with ⟨p, f, d, hf⟩ | ⟨p, f, d, r⟩ | ⟨f, d, hw⟩
    · obtain ⟨h1, h2, _⟩ := ih
      simp only [RunnerState.pending, RunnerState.inFlight, RunnerState.done,
        RunnerState.returned] at h2 ⊢
      exact ⟨hf, by omega, by simp⟩
    · obtain ⟨h1, h2, h3⟩ := ih
      refine ⟨by simp at h1 ⊢; omega, by simp at h2 ⊢; omega, ?_⟩
      intro hret
      obtain ⟨hp, hwc⟩ := h3 hret
      refine ⟨hp, fun hwt => ?_⟩
      obtain ⟨hf0, _⟩ := hwc hwt
      simp at hf0
    · obtain ⟨h1, h2, _⟩ := ih
      refine ⟨h1, h2, fun _ => ⟨rfl, fun hwt => ?_⟩⟩
      have hf0 := hw hwt
      subst hf0
      simp at h2 ⊢
      omega

/-! ### General settings (`updateGeneral`, executor.go:378-402) -/

/-- Tun section of the general configuration (only the fields the executor
reads). -/
structure TunConfig where
  enable : Bool
  redirectToTun : List String
  deriving DecidableEq, Repr

/-- The general configuration section (`config.General`), restricted to the
fields read by `updateGeneral`, `updateListeners`, `updateTun` and
`updateIPTables`.  Opaque collaborator structs (Shadowsocks/Vmess/Tuic
listener configs, the eBPF auto-redir spec) are carried as strings. -/
structure General where
  port : Int
  socksPort : Int
  redirPort : Int
  tproxyPort : Int
  mixedPort : Int
  shadowSocksConfig : String
  vmessConfig : String
  tuicServer : String
  ebpfAutoRedir : String
  allowLan : Bool
  skipAuthPrefixes : List String
  bindAddress : String
  tun : TunConfig
  mode : String
  findProcessMode : String
  ipv6 : Bool
  tcpConcurrent : Bool
  inboundTfo : Bool
  inboundMPTCP : Bool
  unifiedDelay : Bool
  interfaceName : String
  routingMark : Int
  geodataLoader : String
  logLevel : String
  deriving DecidableEq, Repr

/-- Observable calls made by `updateGeneral` into the tunnel, resolver,
dialer, inbound, adapter, iface and geodata collaborators. -/
inductive GeneralEvent
  | setMode (m : String)
  | setFindProcessMode (m : String)
  | setDisableIPv6 (b : Bool)
  | setTcpConcurrent (b : Bool)
  | logTcpConcurrent
  | setTfo (b : Bool)
  | setMPTCP (b : Bool)
  | storeUnifiedDelay (b : Bool)
  | storeDefaultInterface (s : String)
  | storeRoutingMark (i : Int)
  | logRoutingMark
  | flushCache
  | setLoader (s : String)
  deriving DecidableEq, Repr

/-- Embedding of `updateGeneral` (executor.go:378-402) as the trace of its
collaborator calls, in source order.  The dialer's concurrent-dial setter is
called only inside the `if general.TCPConcurrent` branch; there is no call on
the false branch. -/
def updateGeneral (g : General) : List GeneralEvent :=
  [GeneralEvent.setMode g.mode,
   GeneralEvent.setFindProcessMode g.findProcessMode,
   GeneralEvent.setDisableIPv6 (!g.ipv6)] ++
  (if g.tcpConcurrent then
     [GeneralEvent.setTcpConcurrent g.tcpConcurrent, GeneralEvent.logTcpConcurrent]
   else []) ++
  [GeneralEvent.setTfo g.inboundTfo,
   GeneralEvent.setMPTCP g.inboundMPTCP,
   GeneralEvent.storeUnifiedDelay g.unifiedDelay,
   GeneralEvent.storeDefaultInterface g.interfaceName,
   GeneralEvent.storeRoutingMark g.routingMark] ++
  (if g.routingMark > 0 then [GeneralEvent.logRoutingMark] else []) ++
  [GeneralEvent.flushCache, GeneralEvent.setLoader g.geodataLoader]

/-- The dialer's process-wide concurrent-dial flag after replaying a trace of
`updateGeneral` events over a starting value (`dialer.SetTcpConcurrent` is
the only event that writes it). -/
def applyTcpConcurrent (st : Bool) (tr : List GeneralEvent) : Bool :=
  tr.foldl
    (fun s e =>
      match e with
      | GeneralEvent.setTcpConcurrent b => b
      | _ => s)
    st

/-! ### Listener reconciliation (`updateListeners`, executor.go:160-183) -/

/-- Observable calls made by `updateListeners` into the listener and inbound
collaborators.  Each `reCreate` event carries the port or config the listener
is bound to. -/
inductive ListenerEvent
  | patchInboundListeners (ls : List String)
  | setAllowLan (b : Bool)
  | setSkipAuthPrefixes (ps : List String)
  | setBindAddress (a : String)
  | reCreateHTTP (port : Int)
  | reCreateSocks (port : Int)
  | reCreateRedir (port : Int)
  | reCreateAutoRedir (cfg : String)
  | reCreateTProxy (port : Int)
  | reCreateMixed (port : Int)
  | reCreateShadowSocks (cfg : String)
  | reCreateVmess (cfg : String)
  | reCreateTuic (cfg : String)
  deriving DecidableEq, Repr

/-- Embedding of `updateListeners` (executor.go:160-183) as its collaborator
call trace.  `listeners` is the named inbound-listener map (keys only; opaque
here), `force` the recreate flag, `cmfa` the `features.CMFA` build flag that
gates `ReCreateAutoRedir`.  When `force` is false the function returns right
after the generic patch. -/
def updateListeners (g : General) (listeners : List String) (force : Bool)
    (cmfa : Bool) : List ListenerEvent :=
  ListenerEvent.patchInboundListeners listeners ::
    (if !force then []
     else
       [ListenerEvent.setAllowLan g.allowLan,
        ListenerEvent.setSkipAuthPrefixes g.skipAuthPrefixes,
        ListenerEvent.setBindAddress g.bindAddress,
        ListenerEvent.reCreateHTTP g.port,
        ListenerEvent.reCreateSocks g.socksPort,
        ListenerEvent.reCreateRedir g.redirPort] ++
       (if cmfa then [] else [ListenerEvent.reCreateAutoRedir g.ebpfAutoRedir]) ++
       [ListenerEvent.reCreateTProxy g.tproxyPort,
        ListenerEvent.reCreateMixed g.mixedPort,
        ListenerEvent.reCreateShadowSocks g.shadowSocksConfig,
        ListenerEvent.reCreateVmess g.vmessConfig,
        ListenerEvent.reCreateTuic g.tuicServer])

/-- Process-wide listener-subsystem state read through the events of
`updateListeners`: the generic inbound-listener set, the allow-LAN flag,
auth-skip prefixes, bind address, and the binding of each protocol role. -/
structure ListenerState where
  inboundListeners : List String
  allowLan : Bool
  skipAuthPrefixes : List String
  bindAddress : String
  httpBind : Option Int
  socksBind : Option Int
  redirBind : Option Int
  autoRedirBind : Option String
  tproxyBind : Option Int
  mixedBind : Option Int
  shadowSocksBind : Option String
  vmessBind : Option String
  tuicBind : Option String
  deriving DecidableEq, Repr

/-- Effect of one `updateListeners` event on the listener-subsystem state.
Recreating a role replaces its binding wholesale (idempotent role
replacement). -/
def applyListenerEvent (st : ListenerState) (e : ListenerEvent) : ListenerState :=
  match e with
  | ListenerEvent.patchInboundListeners ls => { st with inboundListeners := ls }
  | ListenerEvent.setAllowLan b => { st with allowLan := b }
  | ListenerEvent.setSkipAuthPrefixes ps => { st with skipAuthPrefixes := ps }
  | ListenerEvent.setBindAddress a => { st with bindAddress := a }
  | ListenerEvent.reCreateHTTP p => { st with httpBind := some p }
  | ListenerEvent.reCreateSocks p => { st with socksBind := some p }
  | ListenerEvent.reCreateRedir p => { st with redirBind := some p }
  | ListenerEvent.reCreateAutoRedir c => { st with autoRedirBind := some c }
  | ListenerEvent.reCreateTProxy p => { st with tproxyBind := some p }
  | ListenerEvent.reCreateMixed p => { st with mixedBind := some p }
  | ListenerEvent.reCreateShadowSocks c => { st with shadowSocksBind := some c }
  | ListenerEvent.reCreateVmess c => { st with vmessBind := some c }
  | ListenerEvent.reCreateTuic c => { st with tuicBind := some c }

/-- Replay a trace of listener events over a listener-subsystem state. -/
def applyListenerEvents (st : ListenerState) (tr : List ListenerEvent) : ListenerState :=
  tr.foldl applyListenerEvent st

/-! ### DNS stack (`updateDNS`, executor.go:205-253)

The `dns` package is a collaborator whose source is not part of the given
file, so its constructors are modelled from the spec as deterministic record
builders that remember the configuration they were built from. -/

/-- The DNS configuration section (`config.DNS`), restricted to the fields
read by `updateDNS` and `updateIPTables`.  Opaque collaborator values
(enhanced mode, fake-IP pool, fallback filter, policy, cache algorithm) are
carried as strings or string lists. -/
structure DNSConfig where
  enable : Bool
  listen : String
  nameServer : List String
  fallback : List String
  ipv6 : Bool
  ipv6Timeout : Int
  enhancedMode : String
  fakeIPRange : String
  hosts : List (String × String)
  fallbackFilter : String
  defaultNameserver : List String
  nameServerPolicy : String
  proxyServerNameserver : List String
  cacheAlgorithm : String
  deriving DecidableEq, Repr

/-- The `dns.Config` value assembled by `updateDNS` (executor.go:213-233)
before any construction: note `IPv6` is the conjunction of the DNS section's
flag and the general IPv6 flag. -/
structure DnsCfg where
  main : List String
  fallback : List String
  ipv6 : Bool
  ipv6Timeout : Int
  enhancedMode : String
  pool : String
  hosts : List (String × String)
  fallbackFilter : String
  defaultNS : List String
  policy : String
  proxyServer : List String
  ruleProviders : List String
  cacheAlgorithm : String
  deriving DecidableEq, Repr

/-- Embedding of the `dns.Config` literal of executor.go:213-233. -/
def buildDnsCfg (c : DNSConfig) (ruleProviders : List String) (generalIPv6 : Bool) : DnsCfg :=
  { main := c.nameServer
    fallback := c.fallback
    ipv6 := c.ipv6 && generalIPv6
    ipv6Timeout := c.ipv6Timeout
    enhancedMode := c.enhancedMode
    pool := c.fakeIPRange
    hosts := c.hosts
    fallbackFilter := c.fallbackFilter
    defaultNS := c.defaultNameserver
    policy := c.nameServerPolicy
    proxyServer := c.proxyServerNameserver
    ruleProviders := ruleProviders
    cacheAlgorithm := c.cacheAlgorithm }

/-- Modelled from the spec: a `dns.Resolver` built from a configuration; the
model keeps the main and proxy-server nameserver lists, which is all the
executor's control flow observes. -/
structure Resolver where
  main : List String
  proxyServer : List String
  deriving DecidableEq, Repr

/-- Modelled from the spec: `dns.NewResolver`, building "a resolver from
name-server/..." settings. -/
def NewResolver (cfg : DnsCfg) : Resolver :=
  { main := cfg.main, proxyServer := cfg.proxyServer }

/-- Modelled from the spec: `dns.NewProxyServerHostResolver` builds "a
secondary proxy-server-name resolver from the same resolver": its main
servers are the proxy-server nameservers of the resolver it is built from. -/
def NewProxyServerHostResolver (r : Resolver) : Resolver :=
  { main := r.proxyServer, proxyServer := r.proxyServer }

/-- Modelled from the spec: `(*dns.Resolver).Invalid` reports that the
resolver is usable, i.e. "proxy-server-driven resolution is actually
configured" — it has main nameservers.  (The method name notwithstanding,
`true` means the resolver is valid; executor.go:248 installs on `true`.) -/
def Resolver.Invalid (r : Resolver) : Bool :=
  !r.main.isEmpty

/-- Modelled from the spec: a `dns.ResolverEnhancer` — "fake-IP/enhanced-mode
machinery" carrying an "accumulated mapping cache" of hostname-to-fake-IP
entries. -/
structure ResolverEnhancer where
  pool : String
  mode : String
  cache : List (String × String)
  deriving DecidableEq, Repr

/-- Modelled from the spec: `dns.NewEnhancer` builds "a companion enhancer
from the same configuration", with a fresh (empty) mapping cache. -/
def NewEnhancer (cfg : DnsCfg) : ResolverEnhancer :=
  { pool := cfg.pool, mode := cfg.enhancedMode, cache := [] }

/-- Modelled from the spec: `(*dns.ResolverEnhancer).PatchFrom` — the old
enhancer's "accumulated mapping cache is copied into the new enhancer". -/
def ResolverEnhancer.PatchFrom (m old : ResolverEnhancer) : ResolverEnhancer :=
  { m with cache := old.cache }

/-- Modelled from the spec: `dns.NewLocalServer` builds "a local-server
wrapping both" the resolver and the enhancer. -/
structure LocalServer where
  res : Resolver
  mapper : ResolverEnhancer
  deriving DecidableEq, Repr

/-- The DNS listening service as (re)created by `dns.ReCreateServer`: the
listen address it is bound to and the resolver/mapper pair it was given. -/
structure DnsServerState where
  addr : String
  res : Option Resolver
  mapper : Option ResolverEnhancer
  deriving DecidableEq, Repr

/-- Process-wide DNS handles written by `updateDNS`: the four `resolver`
package slots plus the DNS listening service. -/
structure ResolverGlobals where
  defaultResolver : Option Resolver
  defaultHostMapper : Option ResolverEnhancer
  defaultLocalServer : Option LocalServer
  proxyServerHostResolver : Option Resolver
  server : DnsServerState
  deriving DecidableEq, Repr

/-- Construction calls made by `updateDNS`, for stating that the disabled
branch performs no DNS construction. -/
inductive DnsEvent
  | newResolver
  | newProxyServerHostResolver
  | newEnhancer
  | patchFrom
  | newLocalServer
  | reCreateServer (addr : String) (hasResolver hasMapper : Bool)
  deriving DecidableEq, Repr

/-- Embedding of `updateDNS` (executor.go:205-253) as a state transformer on
the process-wide DNS handles, paired with its construction-call trace.
Disabled: all three default slots are cleared and the server is recreated
with an empty address and nil resolver/mapper.  Enabled: resolver, secondary
proxy-server resolver, and enhancer are built; an existing old host mapper's
cache is patched into the new enhancer before installation; the secondary
resolver is installed only when it reports itself valid; finally the server
is recreated on the configured listen address. -/
def updateDNS (c : DNSConfig) (ruleProviders : List String) (generalIPv6 : Bool)
    (st : ResolverGlobals) : ResolverGlobals × List DnsEvent :=
  if !c.enable then
    ({ st with
        defaultResolver := none
        defaultHostMapper := none
        defaultLocalServer := none
        server := { addr := "", res := none, mapper := none } },
     [DnsEvent.reCreateServer "" false false])
  else
    let cfg := buildDnsCfg c ruleProviders generalIPv6
    let r := NewResolver cfg
    let pr := NewProxyServerHostResolver r
    let m0 := NewEnhancer cfg
    let m :=
      match st.defaultHostMapper with
      | some old => m0.PatchFrom old
      | none => m0
    let st1 :=
      { st with
          defaultResolver := some r
          defaultHostMapper := some m
          defaultLocalServer := some { res := r, mapper := m } }
    let st2 :=
      if pr.Invalid then { st1 with proxyServerHostResolver := some pr } else st1
    ({ st2 with server := { addr := c.listen, res := some r, mapper := some m } },
     [DnsEvent.newResolver, DnsEvent.newProxyServerHostResolver, DnsEvent.newEnhancer] ++
       (match st.defaultHostMapper with
        | some _ => [DnsEvent.patchFrom]
        | none => []) ++
       [DnsEvent.newLocalServer, DnsEvent.reCreateServer c.listen true true])

/-! ### Profile / selected-proxy persistence
(`updateProfile`, `patchSelectGroup`, executor.go:412-445) -/

/-- A proxy as observed by `patchSelectGroup`: whether the dynamic cast to
`*adapter.Proxy` succeeds, whether its inner adapter is
`outboundgroup.SelectAble`, and — modelled from the spec (the outboundgroup
package is not part of the given source) — the group's active selection,
which `ForceSet` overwrites. -/
structure ProxyEntry where
  isAdapterProxy : Bool
  selectAble : Bool
  selected : Option String
  deriving DecidableEq, Repr

/-- Embedding of the per-proxy body of `patchSelectGroup`
(executor.go:427-444): skip non-`adapter.Proxy` values, skip non-SelectAble
adapters, skip names absent from the persisted selected map, otherwise
`ForceSet` the remembered selection. -/
def patchSelectGroupBody (mapping : List (String × String)) (name : String)
    (p : ProxyEntry) : ProxyEntry :=
  if !p.isAdapterProxy then p
  else if !p.selectAble then p
  else
    match mapping.lookup name with
    | none => p
    | some selected => { p with selected := some selected }

/-- Embedding of `patchSelectGroup` (executor.go:421-445).  `mapping` is the
cache file's persisted selected map (`none` when the cache has no map, in
which case the function returns with no effect); `proxies` the proxy map as
an association list. -/
def patchSelectGroup (mapping : Option (List (String × String)))
    (proxies : List (String × ProxyEntry)) : List (String × ProxyEntry) :=
  match mapping with
  | none => proxies
  | some m => proxies.map (fun np => (np.1, patchSelectGroupBody m np.1 np.2))

/-- Embedding of `updateProfile` (executor.go:412-419): store the
store-selected flag, and patch the select groups only when it is enabled.
Returns the stored flag and the resulting proxy map. -/
def updateProfile (storeSelected : Bool) (mapping : Option (List (String × String)))
    (proxies : List (String × ProxyEntry)) :
    Bool × List (String × ProxyEntry) :=
  (storeSelected,
   if storeSelected then patchSelectGroup mapping proxies else proxies)

/-! ### Privileged network rules (`updateIPTables`, executor.go:447-505) -/

/-- The iptables configuration section (`config.IPTables`) fields read by
`updateIPTables`. -/
structure IPTablesConfig where
  enable : Bool
  inboundInterface : String
  bypass : List String
  deriving DecidableEq, Repr

/-- The slice of `config.Config` that `updateIPTables` reads. -/
structure Config where
  general : General
  dns : DNSConfig
  iptables : IPTablesConfig
  deriving DecidableEq, Repr

/-- Observable calls made by `updateIPTables` into the tproxy installer, the
dialer and the process.  `setTProxyIPTables` carries the arguments of the
install call and its outcome (`none` = success, `some e` = the installer's
error); `exitProcess` is `os.Exit`. -/
inductive IPTEvent
  | cleanupTProxyIPTables
  | storeRoutingMark (mark : Int)
  | setTProxyIPTables (dev : String) (bypass : List String) (tport : Nat)
      (dnsPort : Nat) (err : Option String)
  | logErrorFatal (msg : String)
  | exitProcess (code : Nat)
  | logInfoCompleted
  deriving DecidableEq, Repr

/-- Embedding of `updateIPTables` (executor.go:447-505) as the trace of its
collaborator calls, paired with the dialer's default routing mark after the
call.  `goos` is `runtime.GOOS`; `parseAddrPort` stands for
`netip.ParseAddrPort` applied to the DNS listen string, yielding the port on
success; `installErr` is the outcome `tproxy.SetTProxyIPTables` would
return.  The deferred handler turns any recorded error into a fatal log plus
`os.Exit(2)`; the Go `uint16` cast of the tproxy port is the `% 65536`. -/
def updateIPTables (goos : String) (cfg : Config)
    (parseAddrPort : String → Option Nat) (installErr : Option String)
    (routingMark : Int) : List IPTEvent × Int :=
  let t0 := [IPTEvent.cleanupTProxyIPTables]
  if goos ≠ "linux" ∨ cfg.iptables.enable = false then
    (t0, routingMark)
  else if cfg.general.tun.enable then
    (t0 ++ [IPTEvent.logErrorFatal "when tun is enabled, iptables cannot be set automatically",
            IPTEvent.exitProcess 2], routingMark)
  else if cfg.general.tproxyPort = 0 then
    (t0 ++ [IPTEvent.logErrorFatal "tproxy-port must be greater than zero",
            IPTEvent.exitProcess 2], routingMark)
  else if !cfg.dns.enable then
    (t0 ++ [IPTEvent.logErrorFatal "DNS server must be enable",
            IPTEvent.exitProcess 2], routingMark)
  else
    match parseAddrPort cfg.dns.listen with
    | none =>
      (t0 ++ [IPTEvent.logErrorFatal "DNS server must be correct",
              IPTEvent.exitProcess 2], routingMark)
    | some dnsPort =>
      let dev :=
        if cfg.iptables.inboundInterface ≠ "" then cfg.iptables.inboundInterface else "lo"
      let mark := if routingMark = 0 then 2158 else routingMark
      let markTrace :=
        if routingMark = 0 then [IPTEvent.storeRoutingMark 2158] else []
      let tport := (cfg.general.tproxyPort % 65536).toNat
      match installErr with
      | none =>
        (t0 ++ markTrace ++
           [IPTEvent.setTProxyIPTables dev cfg.iptables.bypass tport dnsPort none,
            IPTEvent.logInfoCompleted], mark)
      | some e =>
        (t0 ++ markTrace ++
           [IPTEvent.setTProxyIPTables dev cfg.iptables.bypass tport dnsPort (some e),
            IPTEvent.logErrorFatal e, IPTEvent.exitProcess 2], mark)

/-! ## Claims -/

/-- C2, amended: each runner phase admits at most `K = concurrentCount` tasks
in flight at any instant; the two managed phases (`loadProxyProvider`,
`loadRuleProvider`), which end in `wg.Wait()`, return only after all `n`
launched tasks have finished regardless of individual failures; the
compatibility phase (`hcCompatibleProvider`) also respects the bound `K`,
but its source contains no `wg.Wait()`, so no join property holds for it
(see the counterexample). -/
theorem C2_runner_bound_and_join (K n : Nat) (s : RunnerState) :
    (loadProxyProviderRun K n s →
      s.inFlight ≤ K ∧ (s.returned = true → s.inFlight = 0 ∧ s.done = n))
    ∧ (loadRuleProviderRun K n s →
      s.inFlight ≤ K ∧ (s.returned = true → s.inFlight = 0 ∧ s.done = n))
    ∧ (hcCompatibleProviderRun K n s → s.inFlight ≤ K) := by
  refine ⟨fun h => ?_, fun h => ?_, fun h => ?_⟩
  · obtain ⟨h1, _, h3⟩ := runnerStep_invariant K n true s h
    exact ⟨h1, fun hr => (h3 hr).2 rfl⟩
  · obtain ⟨h1, _, h3⟩ := runnerStep_invariant K n true s h
    exact ⟨h1, fun hr => (h3 hr).2 rfl⟩
  · exact (runnerStep_invariant K n false s h).1

/-- C2 witness: a concrete complete run of `loadProxyProvider` with one task
and `K = 1`: launch, finish, return; the theorem yields that the returned
state has the task done and nothing in flight. -/
theorem C2_runner_bound_and_join_witness :
    (RunnerState.mk 0 0 1 true).inFlight = 0 ∧ (RunnerState.mk 0 0 1 true).done = 1 := by
  have hrun : loadProxyProviderRun 1 1 ⟨0, 0, 1, true⟩ :=
    Relation.ReflTransGen.tail
      (Relation.ReflTransGen.tail
        (Relation.ReflTransGen.tail Relation.ReflTransGen.refl
          (RunnerStep.launch 0 0 0 (by decide)))
        (RunnerStep.finish 0 0 0 false))
      (RunnerStep.ret 0 1 (fun _ => rfl))
  exact ((C2_runner_bound_and_join 1 1 ⟨0, 0, 1, true⟩).1 hrun).2 rfl

/-- C2 counterexample: `hcCompatibleProvider` (no `wg.Wait()` in
executor.go:322-342) over one Compatible provider with `K = 1` reaches a
state where the function has returned while the single launched
initialization task is still in flight and not done — refuting the claim
that all three call sites return only after every launched task has
finished. -/
theorem C2_hc_returns_before_completion :
    hcCompatibleProviderRun 1 1 ⟨0, 1, 0, true⟩ ∧
      (RunnerState.mk 0 1 0 true).returned = true ∧
      (RunnerState.mk 0 1 0 true).inFlight = 1 ∧
      (RunnerState.mk 0 1 0 true).done = 0 := by
  refine ⟨?_, rfl, rfl, rfl⟩
  exact Relation.ReflTransGen.tail
    (Relation.ReflTransGen.tail Relation.ReflTransGen.refl
      (RunnerStep.launch 0 0 0 (by decide)))
    (RunnerStep.ret 1 0 (by simp))

/-- C6: the managed initializer `loadProvider` calls `Initial()` exactly when
the provider's vehicle type is not Compatible; an `Initial` error is logged
with the provider's name under its proxy/rule type and is never propagated
(the embedding returns only a log trace); the compatibility phase body calls
`Initial()` exactly when the vehicle type is Compatible. -/
theorem C6_initial_call_policy (pv : Provider) :
    ((ProviderEvent.initialCall pv.name ∈ loadProvider pv) ↔
      pv.vehicleType ≠ VehicleType.compatible)
    ∧ (∀ err, pv.initialErr = some err →
        pv.vehicleType ≠ VehicleType.compatible →
        (pv.ptype = ProviderType.proxy →
          ProviderEvent.logErrorProxy pv.name err ∈ loadProvider pv)
        ∧ (pv.ptype = ProviderType.rule →
          ProviderEvent.logErrorRule pv.name err ∈ loadProvider pv))
    ∧ ((ProviderEvent.initialCall pv.name ∈ hcCompatibleProviderBody pv) ↔
      pv.vehicleType = VehicleType.compatible) := by
  obtain ⟨name, ptype, vt, ierr⟩ := pv
  cases vt <;> cases ptype <;> cases ierr <;>
    simp [loadProvider, hcCompatibleProviderBody]

/-- C6 witness: a managed HTTP-vehicle proxy provider whose `Initial` fails
gets a proxy-typed error log carrying its name. -/
theorem C6_initial_call_policy_witness :
    ProviderEvent.logErrorProxy "p" "boom" ∈
      loadProvider
        { name := "p", ptype := ProviderType.proxy,
          vehicleType := VehicleType.http, initialErr := some "boom" } :=
  ((C6_initial_call_policy _).2.1 "boom" rfl (by decide)).1 rfl

/-- C10: `updateGeneral` calls the dialer's concurrent-dial setter only when
the configuration's TCPConcurrent flag is true; with the flag false no such
call occurs at all, so replaying the trace over any prior concurrent-dial
state leaves that state unchanged (an apply never switches the toggle off). -/
theorem C10_tcp_concurrent_never_disabled (g : General) :
    (g.tcpConcurrent = false →
      (∀ b, GeneralEvent.setTcpConcurrent b ∉ updateGeneral g)
      ∧ ∀ st, applyTcpConcurrent st (updateGeneral g) = st)
    ∧ (g.tcpConcurrent = true →
      GeneralEvent.setTcpConcurrent true ∈ updateGeneral g
      ∧ ∀ st, applyTcpConcurrent st (updateGeneral g) = true) := by
  by_cases hm : g.routingMark > 0 <;>
    constructor <;> intro hc <;>
      first
        | exact ⟨fun b => by simp [updateGeneral, hc, hm, applyTcpConcurrent],
                 fun st => by simp [updateGeneral, hc, hm, applyTcpConcurrent]⟩
        | exact ⟨by simp [updateGeneral, hc, hm],
                 fun st => by simp [updateGeneral, hc, hm, applyTcpConcurrent]⟩

/-- C10 witness: with TCPConcurrent false and a previously enabled
concurrent-dial state, the state is still enabled after the apply. -/
theorem C10_tcp_concurrent_never_disabled_witness :
    applyTcpConcurrent true
      (updateGeneral
        { port := 0, socksPort := 0, redirPort := 0, tproxyPort := 0,
          mixedPort := 0, shadowSocksConfig := "", vmessConfig := "",
          tuicServer := "", ebpfAutoRedir := "", allowLan := false,
          skipAuthPrefixes := [], bindAddress := "*",
          tun := { enable := false, redirectToTun := [] },
          mode := "rule", findProcessMode := "strict", ipv6 := false,
          tcpConcurrent := false, inboundTfo := false, inboundMPTCP := false,
          unifiedDelay := false, interfaceName := "", routingMark := 0,
          geodataLoader := "memconservative", logLevel := "info" }) = true :=
  ((C10_tcp_concurrent_never_disabled _).1 rfl).2 true

/-- C4: with `force = false`, `updateListeners` performs only the generic
inbound-listener patch and returns: the trace is exactly the one patch call,
and replaying it over any listener-subsystem state changes only the generic
inbound-listener set — every protocol binding, the allow-LAN flag, the
auth-skip prefixes and the bind address are untouched. -/
theorem C4_light_apply_patch_only (g : General) (listeners : List String)
    (cmfa : Bool) :
    updateListeners g listeners false cmfa =
      [ListenerEvent.patchInboundListeners listeners]
    ∧ ∀ st : ListenerState,
        applyListenerEvents st (updateListeners g listeners false cmfa) =
          { st with inboundListeners := listeners } := by
  refine ⟨by simp [updateListeners], fun st => ?_⟩
  simp [updateListeners, applyListenerEvents, applyListenerEvent]

/-- C4 witness: a concrete light apply leaves a bound HTTP listener and the
allow-LAN flag as they were, patching only the inbound-listener set. -/
theorem C4_light_apply_patch_only_witness :
    applyListenerEvents
      { inboundListeners := [], allowLan := true, skipAuthPrefixes := [],
        bindAddress := "*", httpBind := some 7890, socksBind := none,
        redirBind := none, autoRedirBind := none, tproxyBind := none,
        mixedBind := none, shadowSocksBind := none, vmessBind := none,
        tuicBind := none }
      (updateListeners
        { port := 0, socksPort := 0, redirPort := 0, tproxyPort := 0,
          mixedPort := 0, shadowSocksConfig := "", vmessConfig := "",
          tuicServer := "", ebpfAutoRedir := "", allowLan := false,
          skipAuthPrefixes := [], bindAddress := "*",
          tun := { enable := false, redirectToTun := [] },
          mode := "rule", findProcessMode := "strict", ipv6 := false,
          tcpConcurrent := false, inboundTfo := false, inboundMPTCP := false,
          unifiedDelay := false, interfaceName := "", routingMark := 0,
          geodataLoader := "memconservative", logLevel := "info" }
        ["in-0"] false false) =
      { inboundListeners := ["in-0"], allowLan := true, skipAuthPrefixes := [],
        bindAddress := "*", httpBind := some 7890, socksBind := none,
        redirBind := none, autoRedirBind := none, tproxyBind := none,
        mixedBind := none, shadowSocksBind := none, vmessBind := none,
        tuicBind := none } :=
  (C4_light_apply_patch_only _ ["in-0"] false).2 _

/-- C5: with `force = true`, `updateListeners` first sets the allow-LAN flag,
auth-skip prefixes and bind address, then recreates each protocol listener
exactly once, in the fixed source order HTTP, SOCKS, Redir, auto-redir (only
when the platform is not CMFA), TProxy, Mixed, Shadowsocks, Vmess, Tuic,
each bound to its configured port or socket spec — stated as an exact trace
equality, which fixes both the multiplicity and the order. -/
theorem C5_full_apply_fixed_order (g : General) (listeners : List String)
    (cmfa : Bool) :
    updateListeners g listeners true cmfa =
      [ListenerEvent.patchInboundListeners listeners,
       ListenerEvent.setAllowLan g.allowLan,
       ListenerEvent.setSkipAuthPrefixes g.skipAuthPrefixes,
       ListenerEvent.setBindAddress g.bindAddress,
       ListenerEvent.reCreateHTTP g.port,
       ListenerEvent.reCreateSocks g.socksPort,
       ListenerEvent.reCreateRedir g.redirPort] ++
      (if cmfa then [] else [ListenerEvent.reCreateAutoRedir g.ebpfAutoRedir]) ++
      [ListenerEvent.reCreateTProxy g.tproxyPort,
       ListenerEvent.reCreateMixed g.mixedPort,
       ListenerEvent.reCreateShadowSocks g.shadowSocksConfig,
       ListenerEvent.reCreateVmess g.vmessConfig,
       ListenerEvent.reCreateTuic g.tuicServer] := by
  cases cmfa <;> rfl

/-- C3: with DNS enabled and a previous host-mapper instance present,
`updateDNS` installs as the new process-wide host mapper exactly the freshly
built enhancer patched from the old one (`PatchFrom` runs before
installation), so every cache entry present before the apply is present
after it. -/
theorem C3_dns_cache_carry_over (c : DNSConfig) (rp : List String) (g6 : Bool)
    (st : ResolverGlobals) (old : ResolverEnhancer)
    (hen : c.enable = true) (hold : st.defaultHostMapper = some old) :
    ∃ m, (updateDNS c rp g6 st).1.defaultHostMapper = some m
      ∧ m = (NewEnhancer (buildDnsCfg c rp g6)).PatchFrom old
      ∧ ∀ e ∈ old.cache, e ∈ m.cache := by
  refine ⟨(NewEnhancer (buildDnsCfg c rp g6)).PatchFrom old, ?_, rfl, ?_⟩
  · rw [updateDNS]
    simp only [hen, Bool.not_true, Bool.false_eq_true, if_false, hold]
    split <;> rfl
  · intro e he
    simpa [ResolverEnhancer.PatchFrom] using he

/-- C3 witness: a concrete second apply with DNS enabled carries the old
mapper's entry for `example.com` into the newly installed host mapper. -/
theorem C3_dns_cache_carry_over_witness :
    ∃ m,
      (updateDNS
        { enable := true, listen := "127.0.0.1:53", nameServer := ["8.8.8.8"],
          fallback := [], ipv6 := false, ipv6Timeout := 100,
          enhancedMode := "fake-ip", fakeIPRange := "198.18.0.0/16",
          hosts := [], fallbackFilter := "", defaultNameserver := [],
          nameServerPolicy := "", proxyServerNameserver := [],
          cacheAlgorithm := "lru" }
        [] true
        { defaultResolver := none,
          defaultHostMapper :=
            some { pool := "198.18.0.0/16", mode := "fake-ip",
                   cache := [("example.com", "198.18.0.4")] },
          defaultLocalServer := none, proxyServerHostResolver := none,
          server := { addr := "", res := none, mapper := none } }).1.defaultHostMapper
        = some m
      ∧ m = (NewEnhancer (buildDnsCfg
          { enable := true, listen := "127.0.0.1:53", nameServer := ["8.8.8.8"],
            fallback := [], ipv6 := false, ipv6Timeout := 100,
            enhancedMode := "fake-ip", fakeIPRange := "198.18.0.0/16",
            hosts := [], fallbackFilter := "", defaultNameserver := [],
            nameServerPolicy := "", proxyServerNameserver := [],
            cacheAlgorithm := "lru" } [] true)).PatchFrom
          { pool := "198.18.0.0/16", mode := "fake-ip",
            cache := [("example.com", "198.18.0.4")] }
      ∧ ∀ e ∈ [("example.com", "198.18.0.4")], e ∈ m.cache :=
  C3_dns_cache_carry_over _ [] true _ _ rfl rfl

/-- C7: with DNS disabled, `updateDNS` sets the default resolver, default
host mapper and default local server all to `none`, recreates the DNS
listening service with an empty address and nil resolver/mapper, leaves every
other slot (notably the proxy-server host resolver) unchanged, and its trace
holds no construction call at all — exactly the one server recreation. -/
theorem C7_dns_disabled_clears (c : DNSConfig) (rp : List String) (g6 : Bool)
    (st : ResolverGlobals) (hdis : c.enable = false) :
    updateDNS c rp g6 st =
      ({ st with
          defaultResolver := none
          defaultHostMapper := none
          defaultLocalServer := none
          server := { addr := "", res := none, mapper := none } },
       [DnsEvent.reCreateServer "" false false]) := by
  rw [updateDNS]
  simp [hdis]

/-- C7 witness: a concrete disabled-DNS apply over a populated state clears
the three default slots, empties the server and keeps the proxy-server host
resolver. -/
theorem C7_dns_disabled_clears_witness :
    updateDNS
      { enable := false, listen := "127.0.0.1:53", nameServer := [],
        fallback := [], ipv6 := false, ipv6Timeout := 100,
        enhancedMode := "normal", fakeIPRange := "", hosts := [],
        fallbackFilter := "", defaultNameserver := [], nameServerPolicy := "",
        proxyServerNameserver := ["1.1.1.1"], cacheAlgorithm := "lru" }
      [] false
      { defaultResolver := some { main := ["8.8.8.8"], proxyServer := [] },
        defaultHostMapper :=
          some { pool := "198.18.0.0/16", mode := "fake-ip",
                 cache := [("example.com", "198.18.0.4")] },
        defaultLocalServer := none,
        proxyServerHostResolver := some { main := ["1.1.1.1"], proxyServer := ["1.1.1.1"] },
        server := { addr := "127.0.0.1:53", res := none, mapper := none } } =
      ({ defaultResolver := none, defaultHostMapper := none,
         defaultLocalServer := none,
         proxyServerHostResolver := some { main := ["1.1.1.1"], proxyServer := ["1.1.1.1"] },
         server := { addr := "", res := none, mapper := none } },
       [DnsEvent.reCreateServer "" false false]) :=
  C7_dns_disabled_clears _ [] false _ rfl

/-- C8: with DNS enabled, the secondary proxy-server-name resolver built from
the new resolver is installed into the process-wide slot exactly when it
reports itself valid (its `Invalid` method returns true precisely when
proxy-server nameservers are configured); otherwise the slot keeps its prior
value. -/
theorem C8_proxy_server_resolver_guard (c : DNSConfig) (rp : List String)
    (g6 : Bool) (st : ResolverGlobals) (hen : c.enable = true) :
    ((updateDNS c rp g6 st).1.proxyServerHostResolver =
      if (NewProxyServerHostResolver (NewResolver (buildDnsCfg c rp g6))).Invalid then
        some (NewProxyServerHostResolver (NewResolver (buildDnsCfg c rp g6)))
      else st.proxyServerHostResolver)
    ∧ ((NewProxyServerHostResolver (NewResolver (buildDnsCfg c rp g6))).Invalid = true ↔
      c.proxyServerNameserver ≠ []) := by
  constructor
  · rw [updateDNS]
    simp only [hen, Bool.not_true, Bool.false_eq_true, if_false]
    split <;> rename_i hinv <;> simp [hinv]
  · simp [Resolver.Invalid, NewProxyServerHostResolver, NewResolver, buildDnsCfg]

/-- C8 witness: with no proxy-server nameservers configured, the prior value
of the proxy-server host resolver slot survives an enabled-DNS apply. -/
theorem C8_proxy_server_resolver_guard_witness :
    (updateDNS
      { enable := true, listen := "127.0.0.1:53", nameServer := ["8.8.8.8"],
        fallback := [], ipv6 := false, ipv6Timeout := 100,
        enhancedMode := "fake-ip", fakeIPRange := "198.18.0.0/16",
        hosts := [], fallbackFilter := "", defaultNameserver := [],
        nameServerPolicy := "", proxyServerNameserver := [],
        cacheAlgorithm := "lru" }
      [] true
      { defaultResolver := none, defaultHostMapper := none,
        defaultLocalServer := none,
        proxyServerHostResolver := some { main := ["9.9.9.9"], proxyServer := ["9.9.9.9"] },
        server := { addr := "", res := none, mapper := none } }).1.proxyServerHostResolver =
      if (NewProxyServerHostResolver (NewResolver (buildDnsCfg
            { enable := true, listen := "127.0.0.1:53", nameServer := ["8.8.8.8"],
              fallback := [], ipv6 := false, ipv6Timeout := 100,
              enhancedMode := "fake-ip", fakeIPRange := "198.18.0.0/16",
              hosts := [], fallbackFilter := "", defaultNameserver := [],
              nameServerPolicy := "", proxyServerNameserver := [],
              cacheAlgorithm := "lru" } [] true))).Invalid then
        some (NewProxyServerHostResolver (NewResolver (buildDnsCfg
            { enable := true, listen := "127.0.0.1:53", nameServer := ["8.8.8.8"],
              fallback := [], ipv6 := false, ipv6Timeout := 100,
              enhancedMode := "fake-ip", fakeIPRange := "198.18.0.0/16",
              hosts := [], fallbackFilter := "", defaultNameserver := [],
              nameServerPolicy := "", proxyServerNameserver := [],
              cacheAlgorithm := "lru" } [] true)))
      else some { main := ["9.9.9.9"], proxyServer := ["9.9.9.9"] } :=
  (C8_proxy_server_resolver_guard _ [] true _ rfl).1

/-- C9: with selection persistence enabled, `updateProfile` re-applies the
remembered selection onto every proxy that casts to an outbound adapter, is
selector-capable, and whose name has an entry in the persisted selected map
(`ForceSet`); a proxy failing any of the three conditions passes through
unchanged.  `hmem` picks an arbitrary entry of the proxy map. -/
theorem C9_selected_restore (m : List (String × String))
    (proxies : List (String × ProxyEntry)) (name : String) (p : ProxyEntry)
    (hmem : (name, p) ∈ proxies) :
    (updateProfile true (some m) proxies).1 = true
    ∧ (∀ sel, p.isAdapterProxy = true → p.selectAble = true →
        m.lookup name = some sel →
        (name, { p with selected := some sel }) ∈
          (updateProfile true (some m) proxies).2)
    ∧ (p.isAdapterProxy = false ∨ p.selectAble = false ∨ m.lookup name = none →
        (name, p) ∈ (updateProfile true (some m) proxies).2) := by
  refine ⟨rfl, ?_, ?_⟩
  · intro sel hA hS hL
    refine List.mem_map.mpr ⟨(name, p), hmem, ?_⟩
    simp [patchSelectGroupBody, hA, hS, hL]
  · intro hcase
    refine List.mem_map.mpr ⟨(name, p), hmem, ?_⟩
    rcases hcase with h | h | h
    · simp [patchSelectGroupBody, h]
    · cases hA : p.isAdapterProxy <;> simp [patchSelectGroupBody, hA, h]
    · cases hA : p.isAdapterProxy <;> cases hS : p.selectAble <;>
        simp [patchSelectGroupBody, hA, hS, h]

/-- C9 witness: the spec scenario — persisted selection `Auto -> NodeA` and a
selector-capable group `Auto`; after the apply the group's active selection
is `NodeA`. -/
theorem C9_selected_restore_witness :
    ("Auto", { isAdapterProxy := true, selectAble := true,
               selected := some "NodeA" : ProxyEntry }) ∈
      (updateProfile true (some [("Auto", "NodeA")])
        [("Auto", { isAdapterProxy := true, selectAble := true,
                    selected := none })]).2 :=
  ((C9_selected_restore [("Auto", "NodeA")] _ "Auto"
      { isAdapterProxy := true, selectAble := true, selected := none }
      (by simp)).2.1 "NodeA" rfl rfl (by decide))

/-- C1: on Linux with iptables enabled, `updateIPTables` runs the rule
cleanup first unconditionally (head of the trace), and under any of the five
failure conditions — tun enabled, zero tproxy port, DNS disabled, unparsable
DNS listen address, or a failing install call — the trace ends in
`os.Exit(2)` and holds no successful rule-installation call. -/
theorem C1_iptables_fatal_no_rules (cfg : Config)
    (parseAddrPort : String → Option Nat) (installErr : Option String)
    (mark : Int) (hen : cfg.iptables.enable = true) :
    ((updateIPTables "linux" cfg parseAddrPort installErr mark).1.head? =
      some IPTEvent.cleanupTProxyIPTables)
    ∧ ((cfg.general.tun.enable = true ∨ cfg.general.tproxyPort = 0 ∨
        cfg.dns.enable = false ∨ parseAddrPort cfg.dns.listen = none ∨
        installErr ≠ none) →
        (updateIPTables "linux" cfg parseAddrPort installErr mark).1.getLast? =
          some (IPTEvent.exitProcess 2)
        ∧ ∀ dev bp tp dp,
            IPTEvent.setTProxyIPTables dev bp tp dp none ∉
              (updateIPTables "linux" cfg parseAddrPort installErr mark).1) := by
  rw [updateIPTables]
  rw [if_neg (by simp [hen])]
  by_cases htun : cfg.general.tun.enable = true
  · simp [htun]
  · simp only [htun, Bool.false_eq_true, if_false]
    by_cases hport : cfg.general.tproxyPort = 0
    · simp [htun, hport]
    · simp only [hport, if_neg]
      by_cases hdns : cfg.dns.enable = true
      · simp only [hdns, Bool.not_true, Bool.false_eq_true, if_false]
        rcases hparse : parseAddrPort cfg.dns.listen with _ | dnsPort
        · simp [hparse, htun, hport, hdns]
        · rcases installErr with _ | e <;>
            by_cases hmark : mark = 0 <;>
              simp [hparse, htun, hport, hdns, hmark, List.getLast?]
      · have hdns' : cfg.dns.enable = false := by
          cases h : cfg.dns.enable
          · rfl
          · exact absurd h hdns
        simp [hdns', htun, hport]

/-- C1 witness: a Linux apply with iptables enabled and tun also enabled runs
the cleanup first and ends with exit status 2 and no installed rule. -/
theorem C1_iptables_fatal_no_rules_witness :
    IPTEvent.setTProxyIPTables "lo" [] 7893 53 none ∉
      (updateIPTables "linux"
        { general :=
            { port := 0, socksPort := 0, redirPort := 0, tproxyPort := 7893,
              mixedPort := 0, shadowSocksConfig := "", vmessConfig := "",
              tuicServer := "", ebpfAutoRedir := "", allowLan := false,
              skipAuthPrefixes := [], bindAddress := "*",
              tun := { enable := true, redirectToTun := [] },
              mode := "rule", findProcessMode := "strict", ipv6 := false,
              tcpConcurrent := false, inboundTfo := false,
              inboundMPTCP := false, unifiedDelay := false,
              interfaceName := "", routingMark := 0,
              geodataLoader := "memconservative", logLevel := "info" },
          dns :=
            { enable := true, listen := "127.0.0.1:53", nameServer := [],
              fallback := [], ipv6 := false, ipv6Timeout := 100,
              enhancedMode := "fake-ip", fakeIPRange := "", hosts := [],
              fallbackFilter := "", defaultNameserver := [],
              nameServerPolicy := "", proxyServerNameserver := [],
              cacheAlgorithm := "lru" },
          iptables :=
            { enable := true, inboundInterface := "", bypass := [] } }
        (fun _ => some 53) none 0).1 :=
  ((C1_iptables_fatal_no_rules _ (fun _ => some 53) none 0 rfl).2
    (Or.inl rfl)).2 "lo" [] 7893 53
